import Mathlib

/-!
Verification development for the `openFTP` client (`ftp_service.py`).

Strings are modelled as `List Char` (`Str`) so that every operation is a
structurally recursive function the kernel can evaluate.  The embedding
follows the Python source of `FTPService` line by line:

* `splitWs` models `str.split()` (split on whitespace runs, dropping
  empty tokens);
* `lowerStr` models `str.lower` (ASCII case folding via `Char.toLower`);
* `strLt` models Python's code-point lexicographic `<` on strings;
* `sortLines` models `sorted(lines, key=str.lower)` — Python's sort is
  stable, and so is `List.insertionSort`;
* `parseLine` models one iteration of the listing loop in
  `FTPService.list_directory`;
* the stateful session (`connect`, `disconnect`, `list_directory`,
  `upload_file`, `download_file`, `is_connected`) is embedded further
  below as explicit state passing over a `World` record, with `ftplib`
  treated as an abstract server-behaviour oracle.
-/

namespace FTPService

abbrev Str := List Char

/-- Model of Python `str.split()`: split on runs of whitespace, no empty
tokens.  `cur` is the (reversed) token being accumulated, `acc` the tokens
already produced. -/
def splitWsAux (cur : Str) (acc : List Str) : Str → List Str
  | [] => acc ++ (if cur = [] then [] else [cur.reverse])
  | c :: rest =>
    if c.isWhitespace then
      splitWsAux [] (acc ++ (if cur = [] then [] else [cur.reverse])) rest
    else
      splitWsAux (c :: cur) acc rest

/-- Model of Python `line.split()`. -/
def splitWs (s : Str) : List Str := splitWsAux [] [] s

/-- Model of Python `str.lower` (code-point case folding; agrees with
Python on ASCII, which is all an `ls -l` permission/size field uses). -/
def lowerStr (s : Str) : Str := s.map Char.toLower

/-- Model of Python's lexicographic `<` on strings (code-point order). -/
def strLt : Str → Str → Bool
  | [], [] => false
  | [], _ :: _ => true
  | _ :: _, [] => false
  | a :: as, b :: bs =>
    if a.toNat < b.toNat then true
    else if b.toNat < a.toNat then false
    else strLt as bs

/-- The comparison used by `sorted(lines, key=str.lower)`:
`a` precedes (or ties with) `b` when `a.lower() <= b.lower()`. -/
def lowerLe (a b : Str) : Prop := strLt (lowerStr b) (lowerStr a) = false

instance : DecidableRel lowerLe := fun _ _ => inferInstanceAs (Decidable (_ = _))

/-- Model of `sorted(lines, key=str.lower)`.  Python's `sorted` is stable;
`List.insertionSort` is a stable sort, so for this total preorder the two
agree. -/
def sortLines (lines : List Str) : List Str := lines.insertionSort lowerLe

/-- Model of Python `line.startswith(c)` for a single character. -/
def startsWithChar (s : Str) (c : Char) : Bool :=
  match s with
  | [] => false
  | a :: _ => a = c

/-- Model of `" ".join(parts)`. -/
def joinSpace (parts : List Str) : Str := List.intercalate [' '] parts

/-- The dictionary built for each listing entry in
`FTPService.list_directory`. -/
structure Item where
  name : Str
  type : Str
  size : Str
  is_dir : Bool
  deriving DecidableEq

/-- One iteration of the listing loop in `FTPService.list_directory`:

    parts = line.split()
    if len(parts) < 9: continue
    name = " ".join(parts[8:])
    is_dir = line.startswith('d')
    item_type = "Directorio" if is_dir else "Archivo"
    size = parts[4] if not is_dir else ""
-/
def parseLine (line : Str) : Option Item :=
  let parts := splitWs line
  if parts.length < 9 then none
  else
    let name := joinSpace (parts.drop 8)
    let is_dir := startsWithChar line 'd'
    some { name := name
           type := if is_dir then "Directorio".data else "Archivo".data
           size := if is_dir then [] else parts.getD 4 []
           is_dir := is_dir }

/-- The whole listing loop of `FTPService.list_directory`: iterate over
`sorted(lines, key=str.lower)` and collect the parsed items. -/
def parseListing (lines : List Str) : List Item :=
  (sortLines lines).filterMap parseLine

/-- Python exceptions the embedded code can raise.  `notConnectedError`
is the error named by the specification's taxonomy; the implementation
never defines or raises it, but having the constructor lets theorems
compare the exception actually raised against it. -/
inductive PyErr where
  /-- Attribute access on `None` (`self.ftp` is `None`). -/
  | attributeError
  /-- `open(path, 'rb')` on a missing local file. -/
  | fileNotFoundError
  /-- `ftplib.FTP(host)` fails to establish the transport / read the greeting. -/
  | connectionError
  /-- `ftplib` raises `error_temp` for a 4xx reply. -/
  | errorTemp
  /-- `ftplib` raises `error_perm` for a 5xx reply. -/
  | errorPerm
  /-- `ftplib` raises `error_reply` for an unexpected reply. -/
  | errorReply
  /-- Named in the spec's error taxonomy; never raised by the code. -/
  | notConnectedError
  deriving DecidableEq

/-- Behaviour oracle for the remote server as seen through `ftplib`:
whether the control transport and greeting succeed, the reply texts for
the two credential steps, the working directory the session starts in,
how `CWD` resolves a path to a canonical directory (`none` = 550
rejection), and the raw `LIST` lines emitted for a directory.  `quitOk`
says whether the `QUIT` exchange performed by `ftplib.quit` succeeds. -/
structure Server where
  greetOk : Bool
  userReply : Str → Str
  passReply : Str → Str
  initialCwd : Str
  resolve : Str → Option Str
  listing : Str → List Str
  quitOk : Bool

/-- The live `ftplib.FTP` object held in `self.ftp`: the server it talks
to plus the session's current remote working directory. -/
structure Conn where
  server : Server
  cwd : Str

/-- Whole-program state threaded through the embedded methods: the
service's `self.ftp` slot, the local filesystem, and the remote file
store (contents are byte lists). -/
structure World where
  ftp : Option Conn
  localFS : Str → Option (List Nat)
  remoteFS : Str → Option (List Nat)

/-- Pointwise update of a filesystem map. -/
def fsSet (fs : Str → Option (List Nat)) (k : Str) (v : Option (List Nat)) :
    Str → Option (List Nat) :=
  fun x => if x = k then v else fs x

/-- Result of a Python method call: either a value and the post-state, or
a raised exception together with the state at the moment of the raise
(mutations made before the raise persist, as in Python). -/
abbrev PyResult (α : Type) := Except (PyErr × World) (α × World)

/-- Model of one `ftplib` command/reply step: `getresp` raises
`error_temp` on a 4xx reply and `error_perm` on a 5xx reply, and returns
the reply text otherwise. -/
def sendReply (resp : Str) : Except PyErr Str :=
  if startsWithChar resp '4' then .error .errorTemp
  else if startsWithChar resp '5' then .error .errorPerm
  else .ok resp

/-- Model of `ftplib.FTP.login(user, passwd)`: send `USER`; if the reply
is intermediate (3xx) send `PASS`; raise `error_reply` unless the final
reply is a success (2xx), else return it.  (The `ACCT` step for an empty
account is omitted.) -/
def login (srv : Server) (user pass : Str) : Except PyErr Str := do
  let r ← sendReply (srv.userReply user)
  let r ← if startsWithChar r '3' then sendReply (srv.passReply pass) else pure r
  if startsWithChar r '2' then pure r else .error .errorReply

/-- `FTPService.connect`:

    self.ftp = FTP(host, timeout=timeout)
    welcome_message = self.ftp.login(user, password)
    return welcome_message

If the `FTP(...)` constructor raises, the assignment to `self.ftp` never
happens; if `login` raises, `self.ftp` has already been assigned. -/
def connect (w : World) (srv : Server) (user pass : Str) : PyResult Str :=
  if srv.greetOk then
    let w1 : World := { w with ftp := some ⟨srv, srv.initialCwd⟩ }
    match login srv user pass with
    | .ok msg => .ok (msg, w1)
    | .error e => .error (e, w1)
  else
    .error (.connectionError, w)

/-- `FTPService.disconnect`:

    if self.ftp:
        self.ftp.quit()
        self.ftp = None

If `quit()` raises, `self.ftp = None` is never executed. -/
def disconnect (w : World) : PyResult Unit :=
  match w.ftp with
  | none => .ok ((), w)
  | some c =>
    if c.server.quitOk then .ok ((), { w with ftp := none })
    else .error (.errorReply, w)

/-- `FTPService.is_connected`: `self.ftp is not None`. -/
def is_connected (w : World) : Bool := w.ftp.isSome

/-- `FTPService.list_directory`:

    self.ftp.cwd(path)          # AttributeError when self.ftp is None,
                                # error_perm when the server rejects CWD
    current_path = self.ftp.pwd()
    lines = []; self.ftp.dir(lines.append)
    ... parsing loop ...
    return current_path, items
-/
def list_directory (w : World) (path : Str) : PyResult (Str × List Item) :=
  match w.ftp with
  | none => .error (.attributeError, w)
  | some c =>
    match c.server.resolve path with
    | none => .error (.errorPerm, w)
    | some canon =>
      let c1 : Conn := { c with cwd := canon }
      let w1 : World := { w with ftp := some c1 }
      let current_path := c1.cwd
      let lines := c1.server.listing canon
      .ok ((current_path, parseListing lines), w1)

/-- `FTPService.upload_file`:

    with open(local_path, 'rb') as f:     # FileNotFoundError if missing
        self.ftp.storbinary(f'STOR ...', f)   # AttributeError if None

A successful `STOR` stores the local bytes under `remote_name`. -/
def upload_file (w : World) (local_path remote_name : Str) : PyResult Unit :=
  match w.localFS local_path with
  | none => .error (.fileNotFoundError, w)
  | some content =>
    match w.ftp with
    | none => .error (.attributeError, w)
    | some _ =>
      .ok ((), { w with remoteFS := fsSet w.remoteFS remote_name (some content) })

/-- `FTPService.download_file`:

    with open(local_path, 'wb') as f:     # creates/truncates first
        self.ftp.retrbinary(f'RETR ...', f.write)

`open(..., 'wb')` truncates the destination before any FTP traffic; a
missing remote object then makes `RETR` fail with a 550 (`error_perm`),
leaving the truncated file behind. -/
def download_file (w : World) (remote_name local_path : Str) : PyResult Unit :=
  let w1 : World := { w with localFS := fsSet w.localFS local_path (some []) }
  match w1.ftp with
  | none => .error (.attributeError, w1)
  | some _ =>
    match w1.remoteFS remote_name with
    | none => .error (.errorPerm, w1)
    | some content =>
      .ok ((), { w1 with localFS := fsSet w1.localFS local_path (some content) })

/-- The items component of a `list_directory` result (empty on error). -/
def listedItems (r : PyResult (Str × List Item)) : List Item :=
  match r with
  | .ok ((_, items), _) => items
  | .error _ => []

/-- Boolean check that a list of items is sorted case-insensitively by
the `name` field (the ordering the specification asserts). -/
def namesSortedCI : List Item → Bool
  | [] => true
  | [_] => true
  | a :: b :: rest =>
    (!(strLt (lowerStr b.name) (lowerStr a.name))) && namesSortedCI (b :: rest)

/-- A directory listing line for directory `alpha`. -/
def lineAlpha : Str := "drwxr-xr-x 2 u g 4096 Jan 1 00:00 alpha".data

/-- A directory listing line for file `zebra.txt`. -/
def lineZebra : Str := "-rw-r--r-- 1 u g 120 Jan 1 00:00 zebra.txt".data

/-- A directory entry line for `docs` as in the spec's scenario. -/
def lineDocs : Str := "drwxr-xr-x 2 u g 4096 Jan 1 00:00 docs".data

/-- A directory entry line with a leading space: `line.split()` still
finds 9 tokens whose first is the permission string `drwxr-xr-x`, but
`line.startswith('d')` is `False`. -/
def lineLeadingSpace : Str := " drwxr-xr-x 2 u g 4096 Jan 1 00:00 docs".data

/-- A well-behaved server: greets, accepts both credential steps,
resolves every path to itself, lists `lineAlpha` and `lineZebra`
everywhere, and handles `QUIT` cleanly. -/
def srvC1 : Server :=
  { greetOk := true
    userReply := fun _ => "331 Password required.".data
    passReply := fun _ => "230 Logged in.".data
    initialCwd := "/".data
    resolve := fun p => some p
    listing := fun _ => [lineAlpha, lineZebra]
    quitOk := true }

/-- Same server but the `QUIT` exchange raises. -/
def srvQuitFail : Server := { srvC1 with quitOk := false }

/-- Same server but the transport / greeting cannot be established. -/
def srvNoGreet : Server := { srvC1 with greetOk := false }

/-- Same server but the password step is rejected with a 5xx reply. -/
def srvBadPass : Server :=
  { srvC1 with passReply := fun _ => "530 Login incorrect.".data }

/-- The spec's connect scenario server: accepts `USER alice` with an
intermediate reply and `PASS secret` with `230 Logged in`. -/
def srvExample : Server :=
  { greetOk := true
    userReply := fun u => if u = "alice".data then "331 Password required".data
                          else "530 Not logged in".data
    passReply := fun p => if p = "secret".data then "230 Logged in".data
                          else "530 Login incorrect".data
    initialCwd := "/".data
    resolve := fun p => some p
    listing := fun _ => []
    quitOk := true }

/-- A fresh, never-connected client with empty filesystems. -/
def w0 : World := { ftp := none, localFS := fun _ => none, remoteFS := fun _ => none }

/-- A connected session talking to `srvC1`. -/
def wConnected : World :=
  { ftp := some ⟨srvC1, "/".data⟩
    localFS := fun _ => none
    remoteFS := fun _ => none }

/-- A connected session whose server fails the `QUIT` exchange. -/
def wQuitFail : World :=
  { ftp := some ⟨srvQuitFail, "/".data⟩
    localFS := fun _ => none
    remoteFS := fun _ => none }

/-- The state `connect` leaves behind when `srvBadPass` rejects the
password: `self.ftp` has already been assigned. -/
def wBadPass : World := { w0 with ftp := some ⟨srvBadPass, srvBadPass.initialCwd⟩ }

/-- A connected session with a local file `a.txt` holding bytes 1,2,3. -/
def wStore : World :=
  { ftp := some ⟨srvC1, "/".data⟩
    localFS := fun p => if p = "a.txt".data then some [1, 2, 3] else none
    remoteFS := fun _ => none }

/-- A connected session with prior local content at `old.txt` and no
remote objects. -/
def wPrior : World :=
  { ftp := some ⟨srvC1, "/".data⟩
    localFS := fun p => if p = "old.txt".data then some [9, 9] else none
    remoteFS := fun _ => none }

theorem strLt_nil_right : ∀ a : Str, strLt a [] = false
  | [] => rfl
  | _ :: _ => rfl

theorem strLt_asymm : ∀ a b : Str, strLt a b = true → strLt b a = false
  | [], [] => by simp [strLt]
  | [], _ :: _ => fun _ => strLt_nil_right _
  | _ :: _, [] => by simp [strLt]
  | a :: as, b :: bs => by
    simp only [strLt]
    by_cases hab : a.toNat < b.toNat
    · simp [hab, Nat.lt_asymm hab]
    · by_cases hba : b.toNat < a.toNat
      · simp [hab, hba]
      · simpa [hab, hba] using strLt_asymm as bs

theorem strLt_neg_trans : ∀ a b c : Str,
    strLt b a = false → strLt c b = false → strLt c a = false
  | [], _, c => fun _ _ => strLt_nil_right c
  | _ :: _, [], _ => fun h1 _ => by simp [strLt] at h1
  | _ :: _, _ :: _, [] => fun _ h2 => by simp [strLt] at h2
  | x :: as, y :: bs, z :: cs => fun h1 h2 => by
    simp only [strLt] at h1 h2 ⊢
    by_cases hyx : y.toNat < x.toNat
    · rw [if_pos hyx] at h1; exact absurd h1 (by simp)
    · by_cases hzy : z.toNat < y.toNat
      · rw [if_pos hzy] at h2; exact absurd h2 (by simp)
      · rw [if_neg hyx] at h1
        rw [if_neg hzy] at h2
        have hzx : ¬ z.toNat < x.toNat := by omega
        rw [if_neg hzx]
        by_cases hxz : x.toNat < z.toNat
        · rw [if_pos hxz]
        · rw [if_neg hxz]
          have hxy : ¬ x.toNat < y.toNat := by omega
          have hyz : ¬ y.toNat < z.toNat := by omega
          rw [if_neg hxy] at h1
          rw [if_neg hyz] at h2
          exact strLt_neg_trans as bs cs h1 h2

theorem lowerLe_total (a b : Str) : lowerLe a b ∨ lowerLe b a := by
  unfold lowerLe
  by_cases h : strLt (lowerStr b) (lowerStr a) = false
  · exact Or.inl h
  · refine Or.inr (strLt_asymm _ _ ?_)
    revert h
    cases strLt (lowerStr b) (lowerStr a) <;> simp

theorem lowerLe_trans {a b c : Str} (h1 : lowerLe a b) (h2 : lowerLe b c) :
    lowerLe a c :=
  strLt_neg_trans (lowerStr a) (lowerStr b) (lowerStr c) h1 h2

theorem sortLines_perm (lines : List Str) : (sortLines lines).Perm lines :=
  List.perm_insertionSort lowerLe lines

theorem sortLines_sorted (lines : List Str) : (sortLines lines).Pairwise lowerLe := by
  haveI : IsTotal Str lowerLe := ⟨lowerLe_total⟩
  haveI : IsTrans Str lowerLe := ⟨fun _ _ _ => lowerLe_trans⟩
  exact List.sorted_insertionSort lowerLe lines

theorem length_filterMap_eq_countP (f : α → Option β) :
    ∀ l : List α, (l.filterMap f).length = l.countP (fun a => (f a).isSome)
  | [] => rfl
  | a :: l => by
    rw [List.filterMap_cons, List.countP_cons]
    cases h : f a <;>
      simp [h, length_filterMap_eq_countP f l]

theorem parseLine_eq_none_of_short {line : Str} (h : (splitWs line).length < 9) :
    parseLine line = none := by
  simp [parseLine, h]

theorem parseLine_isSome_of_long {line : Str} (h : 9 ≤ (splitWs line).length) :
    (parseLine line).isSome = true := by
  simp [parseLine, Nat.not_lt.mpr h]

/-- Claim C1 is false on the code: `list_directory` sorts the raw lines
(`sorted(lines, key=str.lower)`), not the parsed entries by name.  On a
listing holding directory `alpha` and file `zebra.txt`, the file line
(starting `-`) sorts before the directory line (starting `d`), so the
returned entries are `zebra.txt`, `alpha` — not case-insensitively
sorted by the `name` field. -/
theorem C1_counterexample :
    namesSortedCI (listedItems (list_directory wConnected "/".data)) = false := by
  decide

/-- Claim C1 (amended): the entries returned by `list_directory` are
produced from a permutation of the raw listing lines that is sorted
case-insensitively as whole raw lines (the key is `str.lower` of the
full line, not the entry's `name` field). -/
theorem C1_sorted_by_raw_line (w : World) (c : Conn) (path canon : Str)
    (hc : w.ftp = some c) (hr : c.server.resolve path = some canon) :
    ∃ l' : List Str, l'.Perm (c.server.listing canon) ∧ l'.Pairwise lowerLe ∧
      listedItems (list_directory w path) = l'.filterMap parseLine := by
  refine ⟨sortLines (c.server.listing canon), sortLines_perm _, sortLines_sorted _, ?_⟩
  simp [list_directory, hc, hr, listedItems, parseListing]

/-- Witness for `C1_sorted_by_raw_line` at the concrete connected
session `wConnected`. -/
theorem C1_sorted_by_raw_line_witness :
    ∃ l' : List Str, l'.Perm (srvC1.listing "/".data) ∧ l'.Pairwise lowerLe ∧
      listedItems (list_directory wConnected "/".data) = l'.filterMap parseLine :=
  C1_sorted_by_raw_line wConnected ⟨srvC1, "/".data⟩ "/".data "/".data rfl rfl

/-- Claim C5: a raw listing line with fewer than 9 whitespace-separated
tokens is excluded (parses to `none`), every other line yields exactly
one entry, and the number of entries returned equals the number of
lines with at least 9 tokens.  `parseListing` is a total function, so no
input raises. -/
theorem C5_short_lines_dropped (lines : List Str) :
    (∀ l : Str, (splitWs l).length < 9 → parseLine l = none) ∧
    (∀ l : Str, 9 ≤ (splitWs l).length → (parseLine l).isSome = true) ∧
    (parseListing lines).length
      = lines.countP (fun l => decide (9 ≤ (splitWs l).length)) := by
  refine ⟨fun l h => parseLine_eq_none_of_short h,
    fun l h => parseLine_isSome_of_long h, ?_⟩
  unfold parseListing
  rw [length_filterMap_eq_countP]
  rw [(sortLines_perm lines).countP_eq]
  refine List.countP_congr (fun x _ => ?_)
  by_cases h : 9 ≤ (splitWs x).length
  · simp [parseLine_isSome_of_long h, h]
  · simp [parseLine_eq_none_of_short (Nat.not_le.mp h), h]

/-- Witness for `C5_short_lines_dropped` on the spec's scenario input:
the `total 8` line is dropped and the 9-token line yields one entry. -/
theorem C5_short_lines_dropped_witness :
    (parseListing ["total 8".data, lineZebra]).length = 1 :=
  ((C5_short_lines_dropped ["total 8".data, lineZebra]).2.2).trans (by decide)

/-- Claim C6 is false on the code for a line with leading whitespace:
`line.split()` still yields 9 tokens whose first (the permission string)
starts with `d`, but the code tests `line.startswith('d')` on the raw
line, so the entry is classified as a file. -/
theorem C6_counterexample :
    9 ≤ (splitWs lineLeadingSpace).length ∧
    startsWithChar ((splitWs lineLeadingSpace).getD 0 []) 'd' = true ∧
    Option.map Item.is_dir (parseLine lineLeadingSpace) = some false := by
  refine ⟨by decide, by decide, by decide⟩

/-- Claim C6 (amended): for every raw listing line with at least 9
whitespace-separated tokens, `list_directory` produces an entry whose
kind is directory if and only if the raw line itself starts with `d`
(this equals the first character of the permission string whenever the
line has no leading whitespace); its size is the 5th token for files and
empty for directories; and its name is the space-joined concatenation of
the tokens from position 8 onward. -/
theorem C6_entry_fields (lines : List Str) (line : Str)
    (hmem : line ∈ lines) (h9 : 9 ≤ (splitWs line).length) :
    ∃ it ∈ parseListing lines,
      it.is_dir = startsWithChar line 'd' ∧
      it.type = (if startsWithChar line 'd'
                 then "Directorio".data else "Archivo".data) ∧
      it.size = (if startsWithChar line 'd'
                 then [] else (splitWs line).getD 4 []) ∧
      it.name = joinSpace ((splitWs line).drop 8) := by
  have hnot : ¬ (splitWs line).length < 9 := Nat.not_lt.mpr h9
  refine ⟨{ name := joinSpace ((splitWs line).drop 8)
            type := if startsWithChar line 'd'
                    then "Directorio".data else "Archivo".data
            size := if startsWithChar line 'd'
                    then [] else (splitWs line).getD 4 []
            is_dir := startsWithChar line 'd' }, ?_, rfl, rfl, rfl, rfl⟩
  unfold parseListing
  exact List.mem_filterMap.mpr
    ⟨line, (sortLines_perm lines).mem_iff.mpr hmem, by simp [parseLine, hnot]⟩

/-- Witness for `C6_entry_fields` on the spec's scenario `docs` line. -/
theorem C6_entry_fields_witness :
    ∃ it ∈ parseListing ["total 8".data, lineDocs],
      it.is_dir = startsWithChar lineDocs 'd' ∧
      it.type = (if startsWithChar lineDocs 'd'
                 then "Directorio".data else "Archivo".data) ∧
      it.size = (if startsWithChar lineDocs 'd'
                 then [] else (splitWs lineDocs).getD 4 []) ∧
      it.name = joinSpace ((splitWs lineDocs).drop 8) :=
  C6_entry_fields ["total 8".data, lineDocs] lineDocs (by decide) (by decide)

/-- Claim C2 is false on the code: with no active session the data
operations do raise, but the exception is Python's `AttributeError`
(attribute access on `self.ftp = None`), not the `NotConnectedError` of
the spec's taxonomy, which the code never defines or raises. -/
theorem C2_counterexample :
    list_directory w0 "/".data = .error (.attributeError, w0) ∧
    PyErr.attributeError ≠ PyErr.notConnectedError :=
  ⟨rfl, by decide⟩

/-- Claim C2 (amended): for every client with no active session,
`list_directory` raises `AttributeError`; `upload_file` raises
`AttributeError` when the local file is readable and `FileNotFoundError`
when it is missing; `download_file` raises `AttributeError` (after
creating/truncating the local destination), and the session stays
disconnected. -/
theorem C2_disconnected_ops_raise (w : World) (h : w.ftp = none) (p r lp : Str) :
    list_directory w p = .error (.attributeError, w) ∧
    (∀ content, w.localFS lp = some content →
      upload_file w lp r = .error (.attributeError, w)) ∧
    (w.localFS lp = none → upload_file w lp r = .error (.fileNotFoundError, w)) ∧
    (∃ w1, download_file w r lp = .error (.attributeError, w1) ∧
      is_connected w1 = false) := by
  refine ⟨?_, ?_, ?_, ?_⟩
  · simp [list_directory, h]
  · intro content hcont
    simp [upload_file, hcont, h]
  · intro hcont
    simp [upload_file, hcont]
  · refine ⟨{ w with localFS := fsSet w.localFS lp (some []) }, ?_, ?_⟩
    · simp [download_file, h]
    · simp [is_connected, h]

/-- Witness for `C2_disconnected_ops_raise` at the fresh client `w0`. -/
theorem C2_disconnected_ops_raise_witness :
    list_directory w0 "a".data = .error (.attributeError, w0) ∧
    (∀ content, w0.localFS "c".data = some content →
      upload_file w0 "c".data "b".data = .error (.attributeError, w0)) ∧
    (w0.localFS "c".data = none →
      upload_file w0 "c".data "b".data = .error (.fileNotFoundError, w0)) ∧
    (∃ w1, download_file w0 "b".data "c".data = .error (.attributeError, w1) ∧
      is_connected w1 = false) :=
  C2_disconnected_ops_raise w0 rfl "a".data "b".data "c".data

/-- Claim C3 is false on the code: when the `QUIT` exchange raises,
`disconnect` propagates the exception and `self.ftp = None` is never
executed, so the connected state is not cleared. -/
theorem C3_counterexample :
    disconnect wQuitFail = .error (.errorReply, wQuitFail) ∧
    is_connected wQuitFail = true :=
  ⟨rfl, rfl⟩

/-- Claim C3 (amended): `disconnect` on an already-disconnected client
is a no-op and never raises; on a connected client whose `QUIT`
exchange succeeds it clears the connected state (and a second call is
then a no-op); but if `QUIT` raises, the exception propagates and the
connected state is left set. -/
theorem C3_disconnect_behavior (w : World) :
    (w.ftp = none → disconnect w = .ok ((), w)) ∧
    (∀ c, w.ftp = some c → c.server.quitOk = true →
      disconnect w = .ok ((), { w with ftp := none }) ∧
      is_connected { w with ftp := none } = false ∧
      disconnect { w with ftp := none } = .ok ((), { w with ftp := none })) ∧
    (∀ c, w.ftp = some c → c.server.quitOk = false →
      disconnect w = .error (.errorReply, w) ∧ is_connected w = true) := by
  refine ⟨fun h => by simp [disconnect, h], fun c hc hq => ?_, fun c hc hq => ?_⟩
  · exact ⟨by simp [disconnect, hc, hq], rfl, rfl⟩
  · exact ⟨by simp [disconnect, hc, hq], by simp [is_connected, hc]⟩

/-- Witness for `C3_disconnect_behavior`: a clean disconnect of
`wConnected` followed by an idempotent second call, and the failing
disconnect of `wQuitFail`. -/
theorem C3_disconnect_behavior_witness :
    disconnect { wConnected with ftp := none }
      = .ok ((), { wConnected with ftp := none }) ∧
    disconnect wConnected = .ok ((), { wConnected with ftp := none }) ∧
    disconnect wQuitFail = .error (.errorReply, wQuitFail) := by
  refine ⟨(C3_disconnect_behavior { wConnected with ftp := none }).1 rfl, ?_, ?_⟩
  · exact ((C3_disconnect_behavior wConnected).2.1 ⟨srvC1, "/".data⟩ rfl rfl).1
  · exact ((C3_disconnect_behavior wQuitFail).2.2 ⟨srvQuitFail, "/".data⟩ rfl rfl).1

/-- Claim C4 is false on the code: `connect` assigns `self.ftp` before
logging in, so when the server rejects the password the exception
propagates but the partially opened transport stays in `self.ftp` and
`is_connected` is `True`. -/
theorem C4_counterexample :
    connect w0 srvBadPass "alice".data "wrong".data
      = .error (.errorPerm, wBadPass) ∧
    is_connected wBadPass = true :=
  ⟨rfl, rfl⟩

/-- Claim C4 (amended): a failure while establishing the transport or
reading the greeting leaves the client state unchanged (Disconnected for
a fresh client), but any failure in the authentication steps happens
after `self.ftp` has been assigned, so it leaves `is_connected` true
with the partially opened transport still held. -/
theorem C4_connect_failure_states (w : World) (srv : Server) (u p : Str) :
    (srv.greetOk = false → connect w srv u p = .error (.connectionError, w)) ∧
    (∀ e w', connect w srv u p = .error (e, w') → srv.greetOk = true →
      w'.ftp = some ⟨srv, srv.initialCwd⟩ ∧ is_connected w' = true) := by
  constructor
  · intro h
    simp [connect, h]
  · intro e w' hconn hg
    unfold connect at hconn
    rw [hg] at hconn
    simp only [if_true] at hconn
    cases hlogin : login srv u p with
    | ok msg =>
      rw [hlogin] at hconn
      exact Except.noConfusion hconn
    | error e2 =>
      rw [hlogin] at hconn
      simp only [Except.error.injEq, Prod.mk.injEq] at hconn
      obtain ⟨-, hw⟩ := hconn
      subst hw
      exact ⟨rfl, rfl⟩

/-- Witness for `C4_connect_failure_states`: the no-transport server
leaves `w0` unchanged, while the rejected password leaves `wBadPass`
connected. -/
theorem C4_connect_failure_states_witness :
    connect w0 srvNoGreet "a".data "b".data = .error (.connectionError, w0) ∧
    (wBadPass.ftp = some ⟨srvBadPass, srvBadPass.initialCwd⟩ ∧
      is_connected wBadPass = true) :=
  ⟨(C4_connect_failure_states w0 srvNoGreet "a".data "b".data).1 rfl,
   (C4_connect_failure_states w0 srvBadPass "alice".data "wrong".data).2
     PyErr.errorPerm wBadPass rfl rfl⟩

theorem startsWithChar_ne {s : Str} {a b : Char}
    (h : startsWithChar s a = true) (hne : b ≠ a) :
    startsWithChar s b = false := by
  cases s with
  | nil => exact absurd h (by simp [startsWithChar])
  | cons c cs =>
    simp only [startsWithChar, decide_eq_true_eq] at h
    subst h
    simp only [startsWithChar, decide_eq_false_iff_not]
    exact fun hh => hne hh.symm

/-- Claim C7: when the server greets, answers `USER` with an
intermediate (3xx) reply and `PASS` with a success (2xx) reply,
`connect` returns the server's final acceptance message and the session
becomes connected-authenticated (`is_connected` is true). -/
theorem C7_connect_success (w : World) (srv : Server) (u p : Str)
    (hg : srv.greetOk = true)
    (hu : startsWithChar (srv.userReply u) '3' = true)
    (hp : startsWithChar (srv.passReply p) '2' = true) :
    connect w srv u p
      = .ok (srv.passReply p, { w with ftp := some ⟨srv, srv.initialCwd⟩ }) ∧
    is_connected { w with ftp := some ⟨srv, srv.initialCwd⟩ } = true := by
  have hu4 : startsWithChar (srv.userReply u) '4' = false :=
    startsWithChar_ne hu (by decide)
  have hu5 : startsWithChar (srv.userReply u) '5' = false :=
    startsWithChar_ne hu (by decide)
  have hp3 : startsWithChar (srv.passReply p) '3' = false :=
    startsWithChar_ne hp (by decide)
  have hp4 : startsWithChar (srv.passReply p) '4' = false :=
    startsWithChar_ne hp (by decide)
  have hp5 : startsWithChar (srv.passReply p) '5' = false :=
    startsWithChar_ne hp (by decide)
  have hlogin : login srv u p = .ok (srv.passReply p) := by
    simp [login, sendReply, hu, hu4, hu5, hp, hp3, hp4, hp5,
      Bind.bind, Except.bind, pure, Except.pure]
  constructor
  · simp [connect, hg, hlogin]
  · rfl

/-- Witness for `C7_connect_success`: the spec's scenario — `alice` /
`secret` against `srvExample` — returns `230 Logged in` and leaves the
session connected. -/
theorem C7_connect_success_witness :
    connect w0 srvExample "alice".data "secret".data
      = .ok ("230 Logged in".data,
             { w0 with ftp := some ⟨srvExample, srvExample.initialCwd⟩ }) ∧
    is_connected { w0 with ftp := some ⟨srvExample, srvExample.initialCwd⟩ } = true := by
  have h := C7_connect_success w0 srvExample "alice".data "secret".data
    rfl (by decide) (by decide)
  exact ⟨h.1.trans rfl, h.2⟩

/-- Claim C8: uploading a readable local file and downloading the
stored remote object back to a different local path yields
byte-identical content at the destination (and leaves the source file
untouched). -/
theorem C8_roundtrip (w : World) (c : Conn) (p1 p2 r : Str) (content : List Nat)
    (hc : w.ftp = some c) (h1 : w.localFS p1 = some content) (hne : p2 ≠ p1) :
    ∃ wa wb,
      upload_file w p1 r = .ok ((), wa) ∧
      download_file wa r p2 = .ok ((), wb) ∧
      wb.localFS p2 = some content ∧
      wb.localFS p1 = some content := by
  refine ⟨{ w with remoteFS := fsSet w.remoteFS r (some content) },
          { w with localFS := fsSet (fsSet w.localFS p2 (some [])) p2 (some content),
                   remoteFS := fsSet w.remoteFS r (some content) },
          ?_, ?_, ?_, ?_⟩
  · simp [upload_file, h1, hc]
  · simp [download_file, fsSet, hc]
  · simp [fsSet]
  · simp [fsSet, Ne.symm hne, h1]

/-- Witness for `C8_roundtrip`: bytes `[1, 2, 3]` of `a.txt` survive the
round trip through `remote.bin` into `b.txt`. -/
theorem C8_roundtrip_witness :
    ∃ wa wb,
      upload_file wStore "a.txt".data "remote.bin".data = .ok ((), wa) ∧
      download_file wa "remote.bin".data "b.txt".data = .ok ((), wb) ∧
      wb.localFS "b.txt".data = some [1, 2, 3] ∧
      wb.localFS "a.txt".data = some [1, 2, 3] :=
  C8_roundtrip wStore ⟨srvC1, "/".data⟩ "a.txt".data "b.txt".data
    "remote.bin".data [1, 2, 3] rfl rfl (by decide)

/-- Claim C9: `list_directory` first issues `CWD path`, so the session's
remote working directory is mutated to the server's canonical directory
and persists in the post-state, and the returned canonical path is the
working directory queried (`pwd`) after that change. -/
theorem C9_cwd_side_effect (w : World) (c : Conn) (path canon : Str)
    (hc : w.ftp = some c) (hr : c.server.resolve path = some canon) :
    ∃ w', list_directory w path
        = .ok ((canon, parseListing (c.server.listing canon)), w') ∧
      w'.ftp = some { c with cwd := canon } := by
  refine ⟨{ w with ftp := some { c with cwd := canon } }, ?_, rfl⟩
  simp [list_directory, hc, hr]

/-- Witness for `C9_cwd_side_effect`: listing `docs` on `wConnected`
moves the session's working directory to `docs`. -/
theorem C9_cwd_side_effect_witness :
    ∃ w', list_directory wConnected "docs".data
        = .ok (("docs".data, parseListing (srvC1.listing "docs".data)), w') ∧
      w'.ftp = some { server := srvC1, cwd := "docs".data } :=
  C9_cwd_side_effect wConnected ⟨srvC1, "/".data⟩ "docs".data "docs".data rfl rfl

/-- Claim C10: `download_file` opens (creates or truncates) the local
destination before issuing `RETR`, so when the remote object is missing
the call raises but the local destination has already been truncated to
empty — prior content at that path is destroyed. -/
theorem C10_download_truncates_on_failure (w : World) (c : Conn) (r lp : Str)
    (hc : w.ftp = some c) (hmiss : w.remoteFS r = none) :
    ∃ w', download_file w r lp = .error (.errorPerm, w') ∧
      w'.localFS lp = some [] := by
  refine ⟨{ w with localFS := fsSet w.localFS lp (some []) }, ?_, ?_⟩
  · simp [download_file, hc, hmiss]
  · simp [fsSet]

/-- Witness for `C10_download_truncates_on_failure`: `old.txt` held
bytes `[9, 9]`; after the failed download of a missing remote object it
holds the empty content. -/
theorem C10_download_truncates_on_failure_witness :
    wPrior.localFS "old.txt".data = some [9, 9] ∧
    ∃ w', download_file wPrior "missing.bin".data "old.txt".data
        = .error (.errorPerm, w') ∧
      w'.localFS "old.txt".data = some [] :=
  ⟨rfl, C10_download_truncates_on_failure wPrior ⟨srvC1, "/".data⟩
    "missing.bin".data "old.txt".data rfl rfl⟩

end FTPService
